import Mathlib

/-!
Verification development for the `vast` package (src/vast.go): a typed
in-memory representation of the IAB VAST 4.2 document format together with
its XML codec mapping, expressed through Go `encoding/xml` struct tags.

The Go structs are embedded as Lean structures (pointers become `Option`,
slices become `List`, Go `int` becomes `Int`).  The codec driven by the
struct tags is embedded as explicit `encode…`/`decode…` functions over a
small XML element tree, following the documented semantics of Go's
`encoding/xml` package: attribute fields, character-data fields (plain and
CDATA), nested-path flattening (`a>b` tags, with the parent element opened
eagerly for any non-nil field value and closed after the field group),
`omitempty` handling, and name-directed decoding in which unmatched child
elements are skipped and only top-level character data is accumulated.

Types that src/vast.go references but whose definitions are not part of the
given source (`Duration`, `Offset`, `Extension`, `Advertiser`,
`ViewableImpression`, `Verification`) and the validation pass are modelled
from the specification; each such definition carries a doc comment starting
with `Modelled from the spec:`.
-/

/-- An XML attribute: a name/value pair. -/
structure Attr where
  name : String
  val : String
deriving DecidableEq, Repr

/-- An XML tree node: an element with a tag name, attributes and ordered
children, or a run of character data.  `cdata` records whether the text was
produced inside a CDATA section; on decode both flavours merge into the
enclosing element's character content, per XML text-node merging. -/
inductive Node where
  | elem (name : String) (attrs : List Attr) (children : List Node)
  | txt (s : String) (cdata : Bool)
deriving Repr

mutual

def Node.deq : (a b : Node) → Decidable (a = b)
  | .elem n as cs, .elem n' as' cs' =>
    match decEq n n' with
    | .isFalse h => .isFalse (by simp [h])
    | .isTrue h1 =>
      match decEq as as' with
      | .isFalse h => .isFalse (by simp [h])
      | .isTrue h2 =>
        match Node.deqList cs cs' with
        | .isFalse h => .isFalse (by simp [h])
        | .isTrue h3 => .isTrue (by rw [h1, h2, h3])
  | .txt s c, .txt s' c' =>
    match decEq s s' with
    | .isFalse h => .isFalse (by simp [h])
    | .isTrue h1 =>
      match decEq c c' with
      | .isFalse h => .isFalse (by simp [h])
      | .isTrue h2 => .isTrue (by rw [h1, h2])
  | .elem _ _ _, .txt _ _ => .isFalse (by simp)
  | .txt _ _, .elem _ _ _ => .isFalse (by simp)

def Node.deqList : (a b : List Node) → Decidable (a = b)
  | [], [] => .isTrue rfl
  | [], _ :: _ => .isFalse (by simp)
  | _ :: _, [] => .isFalse (by simp)
  | x :: xs, y :: ys =>
    match Node.deq x y with
    | .isFalse h => .isFalse (by simp [h])
    | .isTrue h1 =>
      match Node.deqList xs ys with
      | .isFalse h => .isFalse (by simp [h])
      | .isTrue h2 => .isTrue (by rw [h1, h2])

end

instance : DecidableEq Node := Node.deq

instance {ε α : Type} [DecidableEq ε] [DecidableEq α] : DecidableEq (Except ε α)
  | .error e, .error e' =>
    match decEq e e' with
    | .isTrue h => .isTrue (by rw [h])
    | .isFalse h => .isFalse (by simp [h])
  | .error _, .ok _ => .isFalse (by simp)
  | .ok _, .error _ => .isFalse (by simp)
  | .ok a, .ok a' =>
    match decEq a a' with
    | .isTrue h => .isTrue (by rw [h])
    | .isFalse h => .isFalse (by simp [h])

/-- Error taxonomy of the codec and validator (spec §7): only the kinds
needed here are listed. -/
inductive VastError where
  | invalidFormat
  | malformedAd
  | missingOffset
  | invalidPricingModel
  | missingAuthority
deriving DecidableEq, Repr

/-- Modelled from the spec: `Duration` (definition not in src/vast.go) is a
time value written `HH:MM:SS` or `HH:MM:SS.mmm`; modelled as the total
number of milliseconds. -/
abbrev Duration := Nat

/-- The numeric value of a decimal digit character, if it is one. -/
def digitVal (c : Char) : Option Nat :=
  if c.isDigit then some (c.toNat - 48) else none

/-- Two decimal digit characters as a number below 100. -/
def twoDigits (a b : Char) : Option Nat := do
  let x ← digitVal a
  let y ← digitVal b
  pure (x * 10 + y)

/-- Modelled from the spec: `ParseDuration` (definition not in src/vast.go)
accepts exactly `HH:MM:SS` or `HH:MM:SS.mmm` (two-digit fields, three-digit
milliseconds, minutes and seconds below 60 per the documented pattern
`\d\x7b2\x7d:[0-5]\d:[0-5]\d(\.\d\d\d)?`) and rejects any other shape with
`invalidFormat`. -/
def ParseDuration (s : String) : Except VastError Duration :=
  match s.data with
  | [h1, h2, ':', m1, m2, ':', s1, s2] =>
    match twoDigits h1 h2, twoDigits m1 m2, twoDigits s1 s2 with
    | some h, some m, some sec =>
      if m < 60 ∧ sec < 60 then .ok (((h * 60 + m) * 60 + sec) * 1000)
      else .error .invalidFormat
    | _, _, _ => .error .invalidFormat
  | [h1, h2, ':', m1, m2, ':', s1, s2, '.', d1, d2, d3] =>
    match twoDigits h1 h2, twoDigits m1 m2, twoDigits s1 s2,
        digitVal d1, digitVal d2, digitVal d3 with
    | some h, some m, some sec, some x, some y, some z =>
      if m < 60 ∧ sec < 60 then
        .ok ((((h * 60 + m) * 60 + sec) * 1000) + (x * 100 + y * 10 + z))
      else .error .invalidFormat
    | _, _, _, _, _, _ => .error .invalidFormat
  | _ => .error .invalidFormat

/-- Left-pad a number to two decimal digits. -/
def pad2 (n : Nat) : String :=
  if n < 10 then "0" ++ toString n else toString n

/-- Left-pad a number to three decimal digits. -/
def pad3 (n : Nat) : String :=
  if n < 10 then "00" ++ toString n
  else if n < 100 then "0" ++ toString n
  else toString n

/-- Modelled from the spec: canonical rendering of a `Duration` as
`HH:MM:SS`, with the `.mmm` part rendered exactly when the millisecond
remainder is non-zero (the documented canonical-rendering choice). -/
def renderDuration (d : Duration) : String :=
  pad2 (d / 3600000) ++ ":" ++ pad2 (d / 60000 % 60) ++ ":" ++
    pad2 (d / 1000 % 60) ++
    (if d % 1000 = 0 then "" else "." ++ pad3 (d % 1000))

/-- Modelled from the spec: `Offset` (definition not in src/vast.go) is
either a time offset (a `Duration`) or a percentage of the total duration —
a two-case union whose representations are never coerced into each other.
A percentage is an integer or decimal number: `units` is the integer part
and `frac` the list of fractional digits (empty for an integer percent). -/
inductive Offset where
  | time (d : Duration)
  | percent (units : Nat) (frac : List Nat)
deriving DecidableEq, Repr

/-- A non-empty all-digit prefix folded into a number. -/
def digitsToNat : List Char → Option Nat
  | [] => none
  | cs => cs.foldlM (fun acc c => (digitVal c).map (fun d => acc * 10 + d)) 0

/-- Modelled from the spec: the `<number>%` percentage shape — one or more
digits, an optional decimal point with one or more digits, then `%`. -/
def parsePercent (s : String) : Option (Nat × List Nat) :=
  match s.data.reverse with
  | '%' :: rest =>
    let body := rest.reverse
    match body.splitOn '.' with
    | [whole] => (digitsToNat whole).map (fun u => (u, []))
    | [whole, fracDigits] =>
      match digitsToNat whole, fracDigits.mapM digitVal, fracDigits with
      | some u, some fr, _ :: _ => some (u, fr)
      | _, _, _ => none
    | _ => none
  | _ => none

/-- Modelled from the spec: `ParseOffset` (definition not in src/vast.go)
stores text matching the duration pattern as a time offset, text matching
`<number>%` as a percentage offset, and rejects anything else. -/
def ParseOffset (s : String) : Except VastError Offset :=
  match ParseDuration s with
  | .ok d => .ok (.time d)
  | .error _ =>
    match parsePercent s with
    | some (u, fr) => .ok (.percent u fr)
    | none => .error .invalidFormat

/-- Modelled from the spec: rendering of an `Offset` — a time offset renders
as its duration, a percentage as the number followed by `%`. -/
def renderOffset : Offset → String
  | .time d => renderDuration d
  | .percent u fr =>
    toString u ++
      (if fr.isEmpty then "" else "." ++ String.mk (fr.map (fun d => Char.ofNat (48 + d)))) ++
      "%"

/-! ## The document model

Each Go struct of src/vast.go becomes a Lean structure with the same name
and field names, in the same field order (encoding emits attributes and
child elements in declared field order).  Go pointers become `Option`, Go
slices become `List`, Go `int` becomes `Int`.  Go's zero values (used by
decode for absent data) are `""`, `0`, `false`, `none`, `[]`.
-/

/-- `CDATAString`: character data wrapped in a CDATA section
(src/vast.go `CDATAString`, tag `xml:",cdata"`). -/
structure CDATAString where
  CDATA : String
deriving DecidableEq, Repr

/-- `PlainString`: plain character data (src/vast.go `PlainString`,
tag `xml:",chardata"`). -/
structure PlainString where
  CDATA : String
deriving DecidableEq, Repr

/-- `Impression` (src/vast.go): `id` attribute (omitempty) plus a
CDATA-wrapped URI. -/
structure Impression where
  ID : String
  URI : String
deriving DecidableEq, Repr

/-- `Pricing` (src/vast.go): `model` and `currency` attributes (required,
no omitempty) plus a CDATA value. -/
structure Pricing where
  Model : String
  Currency : String
  Value : String
deriving DecidableEq, Repr

/-- `BlockedAdCategories` (src/vast.go): plain character data plus an
`authority` attribute (no omitempty). -/
structure BlockedAdCategories where
  Categories : String
  Authority : String
deriving DecidableEq, Repr

/-- `AdSystem` (src/vast.go): name as plain character data, `version`
attribute (omitempty). -/
structure AdSystem where
  Name : String
  Version : String
deriving DecidableEq, Repr

/-- `Category` (src/vast.go): category name as plain character data plus an
`authority` attribute (no omitempty). -/
structure Category where
  Category : String
  Authority : String
deriving DecidableEq, Repr

/-- `Survey` (src/vast.go): CDATA URI plus a `type` attribute (no
omitempty).  The Go field `Type` is spelled `Type'` because `Type` is a
Lean keyword. -/
structure Survey where
  URI : String
  Type' : String
deriving DecidableEq, Repr

/-- `UniversalAdID` (src/vast.go): id as plain character data plus an
`idRegistry` attribute (no omitempty). -/
structure UniversalAdID where
  ID : String
  IDRegistry : String
deriving DecidableEq, Repr

/-- `StaticResource` (src/vast.go): `creativeType` attribute (omitempty)
plus a CDATA URI. -/
structure StaticResource where
  CreativeType : String
  URI : String
deriving DecidableEq, Repr

/-- `HTMLResource` (src/vast.go): `xmlEncoded` attribute (`*bool`,
omitempty) plus CDATA HTML content. -/
structure HTMLResource where
  XMLEncoded : Option Bool
  HTML : String
deriving DecidableEq, Repr

/-- `AdParameters` (src/vast.go): `xmlEncoded` attribute (`*bool`,
omitempty) plus CDATA parameters. -/
structure AdParameters where
  XMLEncoded : Option Bool
  Parameters : String
deriving DecidableEq, Repr

/-- `VideoClick` (src/vast.go): `id` attribute (omitempty) plus a CDATA
URI. -/
structure VideoClick where
  ID : String
  URI : String
deriving DecidableEq, Repr

/-- `CompanionClickTracking` (src/vast.go): `id` attribute (omitempty) plus
a CDATA URI. -/
structure CompanionClickTracking where
  ID : String
  URI : String
deriving DecidableEq, Repr

/-- `NonLinearClickTracking` (src/vast.go): `id` attribute (omitempty) plus
a CDATA URI. -/
structure NonLinearClickTracking where
  ID : String
  URI : String
deriving DecidableEq, Repr

/-- `MediaFile` (src/vast.go): CDATA URI plus attributes; `delivery`,
`type`, `width`, `height` have no omitempty, the rest are omitempty.
The Go field `Type` is spelled `Type'` (Lean keyword). -/
structure MediaFile where
  URI : String
  Delivery : String
  Type' : String
  Width : Int
  Height : Int
  Codec : String
  ID : String
  Bitrate : Int
  MinBitrate : Int
  MaxBitrate : Int
  Scalable : Option Bool
  MaintainAspectRatio : Option Bool
  APIFramework : String
  FileSize : Int
  MediaType : String
deriving DecidableEq, Repr

/-- `Tracking` (src/vast.go): `event` attribute (no omitempty), optional
`offset` attribute, CDATA URI, custom `ua` attribute (omitempty). -/
structure Tracking where
  Event : String
  Offset : Option Offset
  URI : String
  UA : String
deriving DecidableEq, Repr

/-- Modelled from the spec: `Extension` (definition not in src/vast.go) is
an opaque named sub-tree — attributes plus child tree — captured
structurally and re-emitted byte-faithfully; the element name `Extension`
comes from the enclosing `Extensions>Extension` tag. -/
structure Extension where
  attrs : List Attr
  children : List Node
deriving DecidableEq, Repr

/-- Modelled from the spec: `Advertiser` (definition not in src/vast.go) is
the name of the advertiser as defined by the ad serving party, modelled as
plain character data. -/
structure Advertiser where
  Name : String
deriving DecidableEq, Repr

/-- Modelled from the spec: `ViewableImpression` (definition not in
src/vast.go) provides viewability tracking URIs in three containers:
`Viewable`, `NotViewable` and `ViewUndetermined` (CDATA strings). -/
structure ViewableImpression where
  Viewable : List CDATAString
  NotViewable : List CDATAString
  ViewUndetermined : List CDATAString
deriving DecidableEq, Repr

/-- Modelled from the spec: `Verification` (definition not in src/vast.go)
lists the resources and metadata required to execute third-party
measurement code; the spec gives no field breakdown, so it is modelled as
an opaque element: attributes plus child tree. -/
structure Verification where
  attrs : List Attr
  children : List Node
deriving DecidableEq, Repr

/-- `VideoClicks` (src/vast.go): three lists of `VideoClick`, all
omitempty. -/
structure VideoClicks where
  ClickTrackings : List VideoClick
  CustomClicks : List VideoClick
  ClickThroughs : List VideoClick
deriving DecidableEq, Repr

/-- The value of Go's `xml.Name` (namespace and local name). -/
structure XmlName where
  Space : String
  Local : String
deriving DecidableEq, Repr

/-- `Icon` (src/vast.go): industry-initiative icon.  `program`, `width`,
`height`, `xPosition`, `yPosition`, `offset`, `duration` attributes have no
omitempty; `apiFramework`, `pxratio`, `altText`, `hoverText` are omitempty.
`IconClickThrough` and `IconClickTrackings` share the flattened
`IconClicks` parent element. -/
structure Icon where
  Program : String
  Width : Int
  Height : Int
  XPosition : String
  YPosition : String
  Offset : Option Offset
  Duration : Duration
  APIFramework : String
  Pxratio : String
  AltText : String
  HoverText : String
  StaticResource : Option StaticResource
  IFrameResource : String
  HTMLResource : Option HTMLResource
  IconClickThrough : Option CDATAString
  IconClickTrackings : List CDATAString
  IconViewTracking : Option CDATAString
deriving DecidableEq, Repr

/-- `Icons` (src/vast.go): `XMLName *xml.Name` fixes the element name to
`Icons` via its tag; because the field's type is `*xml.Name` (not
`xml.Name`), Go's decoder never populates it, and the encoder uses the tag
name, never the field value. -/
structure Icons where
  XMLName : Option XmlName
  Icon : List Icon
deriving DecidableEq, Repr

/-- `Companion` (src/vast.go): companion ad.  All six dimension attributes
(`width`, `height`, `assetWidth`, `assetHeight`, `expandedWidth`,
`expandedHeight`) carry omitempty, unlike `CompanionWrapper`.
`IFrameResource` is a child element (`xml:",omitempty"`), unlike
`CompanionWrapper`'s CDATA field. -/
structure Companion where
  ID : String
  Width : Int
  Height : Int
  AssetWidth : Int
  AssetHeight : Int
  ExpandedWidth : Int
  ExpandedHeight : Int
  APIFramework : String
  AdSlotID : String
  HTMLResource : Option HTMLResource
  IFrameResource : String
  StaticResource : Option StaticResource
  AdParameters : Option AdParameters
  AltText : String
  CompanionClickThrough : String
  CompanionClickTrackings : List CompanionClickTracking
  TrackingEvents : Option (List Tracking)
deriving DecidableEq, Repr

/-- `CompanionWrapper` (src/vast.go): companion ad in a wrapper.  The six
dimension attributes have no omitempty (always emitted), and
`IFrameResource` carries `xml:",cdata"`: it is written as CDATA character
data of the enclosing `Companion` element itself, not as a child
element. -/
structure CompanionWrapper where
  ID : String
  Width : Int
  Height : Int
  AssetWidth : Int
  AssetHeight : Int
  ExpandedWidth : Int
  ExpandedHeight : Int
  APIFramework : String
  AdSlotID : String
  CompanionClickThrough : String
  CompanionClickTracking : List CDATAString
  AltText : String
  TrackingEvents : Option (List Tracking)
  AdParameters : Option AdParameters
  StaticResource : Option StaticResource
  IFrameResource : String
  HTMLResource : Option HTMLResource
deriving DecidableEq, Repr

/-- `NonLinear` (src/vast.go). -/
structure NonLinear where
  ID : String
  Width : Int
  Height : Int
  ExpandedWidth : Int
  ExpandedHeight : Int
  Scalable : Option Bool
  MaintainAspectRatio : Option Bool
  MinSuggestedDuration : Duration
  APIFramework : String
  HTMLResource : Option HTMLResource
  IFrameResource : String
  StaticResource : Option StaticResource
  AdParameters : Option AdParameters
  NonLinearClickThrough : Option CDATAString
  NonLinearClickTrackings : List NonLinearClickTracking
deriving DecidableEq, Repr

/-- `NonLinearWrapper` (src/vast.go). -/
structure NonLinearWrapper where
  ID : String
  Width : Int
  Height : Int
  ExpandedWidth : Int
  ExpandedHeight : Int
  Scalable : Option Bool
  MaintainAspectRatio : Option Bool
  MinSuggestedDuration : Duration
  APIFramework : String
  TrackingEvents : Option (List Tracking)
  NonLinearClickTracking : List CDATAString
deriving DecidableEq, Repr

/-- `CompanionAds` (src/vast.go): `required` attribute (omitempty) plus
companions. -/
structure CompanionAds where
  Required : String
  Companions : List Companion
deriving DecidableEq, Repr

/-- `NonLinearAds` (src/vast.go). -/
structure NonLinearAds where
  TrackingEvents : Option (List Tracking)
  NonLinears : List NonLinear
deriving DecidableEq, Repr

/-- `CompanionAdsWrapper` (src/vast.go). -/
structure CompanionAdsWrapper where
  Required : String
  Companions : List CompanionWrapper
deriving DecidableEq, Repr

/-- `NonLinearAdsWrapper` (src/vast.go). -/
structure NonLinearAdsWrapper where
  TrackingEvents : Option (List Tracking)
  NonLinears : List NonLinearWrapper
deriving DecidableEq, Repr

/-- `Linear` (src/vast.go): duration element (omitempty), media files under
the flattened `MediaFiles` parent, ad parameters, tracking events under
`TrackingEvents`, video clicks, icons, and a `skipoffset` attribute. -/
structure Linear where
  Duration : Duration
  MediaFiles : Option (List MediaFile)
  AdParameters : Option AdParameters
  TrackingEvents : Option (List Tracking)
  VideoClicks : Option VideoClicks
  Icons : Option Icons
  SkipOffset : Option Offset
deriving DecidableEq, Repr

/-- `LinearWrapper` (src/vast.go). -/
structure LinearWrapper where
  Icons : Option Icons
  TrackingEvents : Option (List Tracking)
  VideoClicks : Option VideoClicks
deriving DecidableEq, Repr

/-- `Creative` (src/vast.go): universal ad ids, creative extensions under
the flattened `CreativeExtensions` parent, at most one payload among
`CompanionAds` / `Linear` / `NonLinearAds`, plus attributes. -/
structure Creative where
  UniversalAdID : List UniversalAdID
  CreativeExtensions : Option (List Extension)
  CompanionAds : Option CompanionAds
  Linear : Option Linear
  NonLinearAds : Option NonLinearAds
  ID : String
  Sequence : Int
  AdID : String
  APIFramework : String
deriving DecidableEq, Repr

/-- `CreativeWrapper` (src/vast.go). -/
structure CreativeWrapper where
  ID : String
  Sequence : Int
  AdID : String
  Linear : Option LinearWrapper
  CompanionAds : Option CompanionAdsWrapper
  NonLinearAds : Option NonLinearAdsWrapper
deriving DecidableEq, Repr

/-- `InLine` (src/vast.go): the terminal ad definition. -/
structure InLine where
  AdSystem : AdSystem
  AdTitle : String
  Impressions : List Impression
  AdServingId : String
  Category : List Category
  Description : String
  Advertiser : Option Advertiser
  Pricing : Option Pricing
  Survey : Option Survey
  Errors : List CDATAString
  Extensions : Option (List Extension)
  ViewableImpression : Option ViewableImpression
  AdVerifications : List Verification
  Creatives : List Creative
  Expires : Option Int
deriving DecidableEq, Repr

/-- `Wrapper` (src/vast.go): a redirect to a secondary ad server.  The
three chain-control booleans are optional (`*bool`) attributes with no
default-resolution step. -/
structure Wrapper where
  Impressions : List Impression
  VASTAdTagURI : CDATAString
  AdSystem : Option AdSystem
  Pricing : Option Pricing
  Errors : List CDATAString
  ViewableImpression : Option ViewableImpression
  AdVerifications : List Verification
  Extensions : Option (List Extension)
  Creatives : Option (List CreativeWrapper)
  BlockedAdCategories : Option BlockedAdCategories
  FollowAdditionalWrappers : Option Bool
  AllowMultipleAds : Option Bool
  FallbackOnNoAd : Option Bool
deriving DecidableEq, Repr

/-- `Ad` (src/vast.go): the `InLine` and `Wrapper` payloads are two
independently-nullable fields — the Go type does not make the both-set
state unrepresentable. -/
structure Ad where
  InLine : Option InLine
  Wrapper : Option Wrapper
  ID : String
  AdType : String
  Sequence : Int
deriving DecidableEq, Repr

/-- `VAST` (src/vast.go): the root element. -/
structure VAST where
  Version : String
  XMLNS : String
  Ads : List Ad
  Errors : List CDATAString
  Mute : Bool
deriving DecidableEq, Repr

/-! ## Encoding

`encode…` functions embed Go `xml.Marshal` over the struct tags of
src/vast.go.  Relevant `encoding/xml` semantics:

* attributes are emitted in field order; `omitempty` drops zero values
  (`""`, `0`, `false`); a nil pointer attribute is always dropped; a
  non-nil pointer is emitted;
* character-data fields (`,chardata` / `,cdata`) write the element's own
  text content at the field's position; empty strings write nothing;
* an element field with a nil pointer writes nothing; `omitempty` on an
  element field drops zero values;
* for a flattened `parent>child` field, the parent element is opened
  before marshalling the field value whenever the field is a non-nil
  pointer or a non-pointer value (even an empty slice), and closed after
  the consecutive run of fields sharing that parent — so a non-nil empty
  list still emits an empty parent element;
* slices emit one element per item, with no enclosing tag of their own;
* `Duration`/`Offset` values render via their text marshallers.
-/

/-- Character data as written by the encoder: empty strings write
nothing. -/
def txtList (s : String) (cdata : Bool) : List Node :=
  if s = "" then [] else [.txt s cdata]

/-- An element whose content is plain character data. -/
def plainElem (name s : String) : Node := .elem name [] (txtList s false)

/-- A plain-text element field with omitempty. -/
def plainElemOmit (name s : String) : List Node :=
  if s = "" then [] else [plainElem name s]

/-- An element whose content is CDATA character data. -/
def cdataElem (name s : String) : Node := .elem name [] (txtList s true)

/-- An optional (pointer) element field: nil writes nothing. -/
def optNodes {α : Type} (o : Option α) (f : α → Node) : List Node :=
  match o with
  | none => []
  | some x => [f x]

/-- A `parent>child` field holding a pointer to a slice: nil writes
nothing; a non-nil (even empty) slice writes the parent element around the
item elements. -/
def parentNodes {α : Type} (name : String) (o : Option (List α)) (f : α → Node) :
    List Node :=
  match o with
  | none => []
  | some l => [.elem name [] (l.map f)]

/-- A required string attribute. -/
def attrStr (n v : String) : List Attr := [⟨n, v⟩]

/-- A string attribute with omitempty. -/
def attrStrOmit (n v : String) : List Attr :=
  if v = "" then [] else [⟨n, v⟩]

/-- Go's decimal rendering of an `int`. -/
def goIntStr (v : Int) : String := toString v

/-- A required int attribute. -/
def attrInt (n : String) (v : Int) : List Attr := [⟨n, goIntStr v⟩]

/-- An int attribute with omitempty. -/
def attrIntOmit (n : String) (v : Int) : List Attr :=
  if v = 0 then [] else [⟨n, goIntStr v⟩]

/-- Go's rendering of a `bool`. -/
def goBoolStr (b : Bool) : String := if b then "true" else "false"

/-- A bool attribute with omitempty (false is dropped). -/
def attrBoolOmit (n : String) (v : Bool) : List Attr :=
  if v then [⟨n, goBoolStr v⟩] else []

/-- A `*bool` attribute: nil is dropped, a pointed-to value is emitted. -/
def attrOptBool (n : String) (v : Option Bool) : List Attr :=
  match v with
  | none => []
  | some b => [⟨n, goBoolStr b⟩]

/-- A required `Duration` attribute (rendered via its text marshaller). -/
def attrDur (n : String) (d : Duration) : List Attr := [⟨n, renderDuration d⟩]

/-- A `Duration` attribute with omitempty (the zero duration is dropped). -/
def attrDurOmit (n : String) (d : Duration) : List Attr :=
  if d = 0 then [] else [⟨n, renderDuration d⟩]

/-- An `*Offset` attribute: nil is dropped. -/
def attrOptOffset (n : String) (o : Option Offset) : List Attr :=
  match o with
  | none => []
  | some x => [⟨n, renderOffset x⟩]

def encodeImpression (x : Impression) : Node :=
  .elem "Impression" (attrStrOmit "id" x.ID) (txtList x.URI true)

def encodePricing (x : Pricing) : Node :=
  .elem "Pricing" (attrStr "model" x.Model ++ attrStr "currency" x.Currency)
    (txtList x.Value true)

def encodeBlockedAdCategories (x : BlockedAdCategories) : Node :=
  .elem "BlockedAdCategories" (attrStr "authority" x.Authority)
    (txtList x.Categories false)

/-- `AdSystem` is marshalled under its field name (`AdSystem` in both
`InLine` and `Wrapper`). -/
def encodeAdSystem (name : String) (x : AdSystem) : Node :=
  .elem name (attrStrOmit "version" x.Version) (txtList x.Name false)

def encodeCategory (x : Category) : Node :=
  .elem "Category" (attrStr "authority" x.Authority) (txtList x.Category false)

def encodeSurvey (x : Survey) : Node :=
  .elem "Survey" (attrStr "type" x.Type') (txtList x.URI true)

def encodeUniversalAdID (x : UniversalAdID) : Node :=
  .elem "UniversalAdId" (attrStr "idRegistry" x.IDRegistry) (txtList x.ID false)

def encodeStaticResource (x : StaticResource) : Node :=
  .elem "StaticResource" (attrStrOmit "creativeType" x.CreativeType)
    (txtList x.URI true)

def encodeHTMLResource (x : HTMLResource) : Node :=
  .elem "HTMLResource" (attrOptBool "xmlEncoded" x.XMLEncoded) (txtList x.HTML true)

def encodeAdParameters (x : AdParameters) : Node :=
  .elem "AdParameters" (attrOptBool "xmlEncoded" x.XMLEncoded)
    (txtList x.Parameters true)

/-- `VideoClick` is marshalled under its field's tag name (`ClickTracking`,
`CustomClick` or `ClickThrough`). -/
def encodeVideoClick (name : String) (x : VideoClick) : Node :=
  .elem name (attrStrOmit "id" x.ID) (txtList x.URI true)

def encodeCompanionClickTracking (x : CompanionClickTracking) : Node :=
  .elem "CompanionClickTracking" (attrStrOmit "id" x.ID) (txtList x.URI true)

def encodeNonLinearClickTracking (x : NonLinearClickTracking) : Node :=
  .elem "NonLinearClickTracking" (attrStrOmit "id" x.ID) (txtList x.URI true)

def encodeMediaFile (x : MediaFile) : Node :=
  .elem "MediaFile"
    (attrStr "delivery" x.Delivery ++ attrStr "type" x.Type' ++
      attrInt "width" x.Width ++ attrInt "height" x.Height ++
      attrStrOmit "codec" x.Codec ++ attrStrOmit "id" x.ID ++
      attrIntOmit "bitrate" x.Bitrate ++ attrIntOmit "minBitrate" x.MinBitrate ++
      attrIntOmit "maxBitrate" x.MaxBitrate ++
      attrOptBool "scalable" x.Scalable ++
      attrOptBool "maintainAspectRatio" x.MaintainAspectRatio ++
      attrStrOmit "apiFramework" x.APIFramework ++
      attrIntOmit "fileSize" x.FileSize ++ attrStrOmit "mediaType" x.MediaType)
    (txtList x.URI true)

def encodeTracking (x : Tracking) : Node :=
  .elem "Tracking"
    (attrStr "event" x.Event ++ attrOptOffset "offset" x.Offset ++
      attrStrOmit "ua" x.UA)
    (txtList x.URI true)

/-- An `Extension` is re-emitted byte-faithfully under its field's tag name
(`Extension` or `CreativeExtension`). -/
def encodeExtension (name : String) (x : Extension) : Node :=
  .elem name x.attrs x.children

def encodeAdvertiser (x : Advertiser) : Node :=
  .elem "Advertiser" [] (txtList x.Name false)

def encodeViewableImpression (x : ViewableImpression) : Node :=
  .elem "ViewableImpression" []
    (x.Viewable.map (fun c => cdataElem "Viewable" c.CDATA) ++
      x.NotViewable.map (fun c => cdataElem "NotViewable" c.CDATA) ++
      x.ViewUndetermined.map (fun c => cdataElem "ViewUndetermined" c.CDATA))

/-- A `Verification` is re-emitted under its field's name
(`AdVerifications` — the `[]Verification` field carries no tag name, so
each item marshals under the field name). -/
def encodeVerification (name : String) (x : Verification) : Node :=
  .elem name x.attrs x.children

def encodeVideoClicks (x : VideoClicks) : Node :=
  .elem "VideoClicks" []
    (x.ClickTrackings.map (encodeVideoClick "ClickTracking") ++
      x.CustomClicks.map (encodeVideoClick "CustomClick") ++
      x.ClickThroughs.map (encodeVideoClick "ClickThrough"))

/-- `Icon`: the `IconClicks` parent element is always present, because the
bare-slice field `IconClickTrackings` opens its flattened parent regardless
of emptiness (Go opens the parent for any non-pointer field value). -/
def encodeIcon (x : Icon) : Node :=
  .elem "Icon"
    (attrStr "program" x.Program ++ attrInt "width" x.Width ++
      attrInt "height" x.Height ++ attrStr "xPosition" x.XPosition ++
      attrStr "yPosition" x.YPosition ++ attrOptOffset "offset" x.Offset ++
      attrDur "duration" x.Duration ++
      attrStrOmit "apiFramework" x.APIFramework ++
      attrStrOmit "pxratio" x.Pxratio ++ attrStrOmit "altText" x.AltText ++
      attrStrOmit "hoverText" x.HoverText)
    (optNodes x.StaticResource encodeStaticResource ++
      plainElemOmit "IFrameResource" x.IFrameResource ++
      optNodes x.HTMLResource encodeHTMLResource ++
      [.elem "IconClicks" []
        (optNodes x.IconClickThrough (fun c => cdataElem "IconClickThrough" c.CDATA) ++
          x.IconClickTrackings.map (fun c => cdataElem "IconClickTracking" c.CDATA))] ++
      optNodes x.IconViewTracking (fun c => cdataElem "IconViewTracking" c.CDATA))

/-- `Icons`: element name fixed to `Icons` by the `XMLName` tag; the
`XMLName` field value itself is never written. -/
def encodeIcons (x : Icons) : Node :=
  .elem "Icons" [] (x.Icon.map encodeIcon)

def encodeCompanion (x : Companion) : Node :=
  .elem "Companion"
    (attrStrOmit "id" x.ID ++ attrIntOmit "width" x.Width ++
      attrIntOmit "height" x.Height ++ attrIntOmit "assetWidth" x.AssetWidth ++
      attrIntOmit "assetHeight" x.AssetHeight ++
      attrIntOmit "expandedWidth" x.ExpandedWidth ++
      attrIntOmit "expandedHeight" x.ExpandedHeight ++
      attrStrOmit "apiFramework" x.APIFramework ++
      attrStrOmit "adSlotId" x.AdSlotID)
    (optNodes x.HTMLResource encodeHTMLResource ++
      plainElemOmit "IFrameResource" x.IFrameResource ++
      optNodes x.StaticResource encodeStaticResource ++
      optNodes x.AdParameters encodeAdParameters ++
      plainElemOmit "AltText" x.AltText ++
      plainElemOmit "CompanionClickThrough" x.CompanionClickThrough ++
      x.CompanionClickTrackings.map encodeCompanionClickTracking ++
      parentNodes "TrackingEvents" x.TrackingEvents encodeTracking)

def encodeCompanionWrapper (x : CompanionWrapper) : Node :=
  .elem "Companion"
    (attrStrOmit "id" x.ID ++ attrInt "width" x.Width ++
      attrInt "height" x.Height ++ attrInt "assetWidth" x.AssetWidth ++
      attrInt "assetHeight" x.AssetHeight ++
      attrInt "expandedWidth" x.ExpandedWidth ++
      attrInt "expandedHeight" x.ExpandedHeight ++
      attrStrOmit "apiFramework" x.APIFramework ++
      attrStrOmit "adSlotId" x.AdSlotID)
    (plainElemOmit "CompanionClickThrough" x.CompanionClickThrough ++
      x.CompanionClickTracking.map (fun c => cdataElem "CompanionClickTracking" c.CDATA) ++
      plainElemOmit "AltText" x.AltText ++
      parentNodes "TrackingEvents" x.TrackingEvents encodeTracking ++
      optNodes x.AdParameters encodeAdParameters ++
      optNodes x.StaticResource encodeStaticResource ++
      txtList x.IFrameResource true ++
      optNodes x.HTMLResource encodeHTMLResource)

def encodeNonLinear (x : NonLinear) : Node :=
  .elem "NonLinear"
    (attrStrOmit "id" x.ID ++ attrInt "width" x.Width ++
      attrInt "height" x.Height ++ attrInt "expandedWidth" x.ExpandedWidth ++
      attrInt "expandedHeight" x.ExpandedHeight ++
      attrOptBool "scalable" x.Scalable ++
      attrOptBool "maintainAspectRatio" x.MaintainAspectRatio ++
      attrDurOmit "minSuggestedDuration" x.MinSuggestedDuration ++
      attrStrOmit "apiFramework" x.APIFramework)
    (optNodes x.HTMLResource encodeHTMLResource ++
      plainElemOmit "IFrameResource" x.IFrameResource ++
      optNodes x.StaticResource encodeStaticResource ++
      optNodes x.AdParameters encodeAdParameters ++
      optNodes x.NonLinearClickThrough (fun c => cdataElem "NonLinearClickThrough" c.CDATA) ++
      x.NonLinearClickTrackings.map encodeNonLinearClickTracking)

def encodeNonLinearWrapper (x : NonLinearWrapper) : Node :=
  .elem "NonLinear"
    (attrStrOmit "id" x.ID ++ attrInt "width" x.Width ++
      attrInt "height" x.Height ++ attrInt "expandedWidth" x.ExpandedWidth ++
      attrInt "expandedHeight" x.ExpandedHeight ++
      attrOptBool "scalable" x.Scalable ++
      attrOptBool "maintainAspectRatio" x.MaintainAspectRatio ++
      attrDurOmit "minSuggestedDuration" x.MinSuggestedDuration ++
      attrStrOmit "apiFramework" x.APIFramework)
    (parentNodes "TrackingEvents" x.TrackingEvents encodeTracking ++
      x.NonLinearClickTracking.map (fun c => cdataElem "NonLinearClickTracking" c.CDATA))

def encodeCompanionAds (x : CompanionAds) : Node :=
  .elem "CompanionAds" (attrStrOmit "required" x.Required)
    (x.Companions.map encodeCompanion)

def encodeNonLinearAds (x : NonLinearAds) : Node :=
  .elem "NonLinearAds" []
    (parentNodes "TrackingEvents" x.TrackingEvents encodeTracking ++
      x.NonLinears.map encodeNonLinear)

def encodeCompanionAdsWrapper (x : CompanionAdsWrapper) : Node :=
  .elem "CompanionAds" (attrStrOmit "required" x.Required)
    (x.Companions.map encodeCompanionWrapper)

def encodeNonLinearAdsWrapper (x : NonLinearAdsWrapper) : Node :=
  .elem "NonLinearAds" []
    (parentNodes "TrackingEvents" x.TrackingEvents encodeTracking ++
      x.NonLinears.map encodeNonLinearWrapper)

def encodeLinear (x : Linear) : Node :=
  .elem "Linear" (attrOptOffset "skipoffset" x.SkipOffset)
    ((if x.Duration = 0 then []
      else [plainElem "Duration" (renderDuration x.Duration)]) ++
      parentNodes "MediaFiles" x.MediaFiles encodeMediaFile ++
      optNodes x.AdParameters encodeAdParameters ++
      parentNodes "TrackingEvents" x.TrackingEvents encodeTracking ++
      optNodes x.VideoClicks encodeVideoClicks ++
      optNodes x.Icons encodeIcons)

def encodeLinearWrapper (x : LinearWrapper) : Node :=
  .elem "Linear" []
    (optNodes x.Icons encodeIcons ++
      parentNodes "TrackingEvents" x.TrackingEvents encodeTracking ++
      optNodes x.VideoClicks encodeVideoClicks)

def encodeCreative (x : Creative) : Node :=
  .elem "Creative"
    (attrStrOmit "id" x.ID ++ attrIntOmit "sequence" x.Sequence ++
      attrStrOmit "adId" x.AdID ++ attrStrOmit "apiFramework" x.APIFramework)
    (x.UniversalAdID.map encodeUniversalAdID ++
      parentNodes "CreativeExtensions" x.CreativeExtensions
        (encodeExtension "CreativeExtension") ++
      optNodes x.CompanionAds encodeCompanionAds ++
      optNodes x.Linear encodeLinear ++
      optNodes x.NonLinearAds encodeNonLinearAds)

def encodeCreativeWrapper (x : CreativeWrapper) : Node :=
  .elem "Creative"
    (attrStrOmit "id" x.ID ++ attrIntOmit "sequence" x.Sequence ++
      attrStrOmit "adId" x.AdID)
    (optNodes x.Linear encodeLinearWrapper ++
      optNodes x.CompanionAds encodeCompanionAdsWrapper ++
      optNodes x.NonLinearAds encodeNonLinearAdsWrapper)

/-- `InLine`: note that the bare-slice field `Creatives []Creative` with
tag `Creatives>Creative` always opens its `Creatives` parent element, even
when the slice is empty. -/
def encodeInLine (x : InLine) : Node :=
  .elem "InLine" []
    ([encodeAdSystem "AdSystem" x.AdSystem] ++
      [plainElem "AdTitle" x.AdTitle] ++
      x.Impressions.map encodeImpression ++
      plainElemOmit "AdServingId" x.AdServingId ++
      x.Category.map encodeCategory ++
      plainElemOmit "Description" x.Description ++
      optNodes x.Advertiser encodeAdvertiser ++
      optNodes x.Pricing encodePricing ++
      optNodes x.Survey encodeSurvey ++
      x.Errors.map (fun c => cdataElem "Error" c.CDATA) ++
      parentNodes "Extensions" x.Extensions (encodeExtension "Extension") ++
      optNodes x.ViewableImpression encodeViewableImpression ++
      x.AdVerifications.map (encodeVerification "AdVerifications") ++
      [.elem "Creatives" [] (x.Creatives.map encodeCreative)] ++
      optNodes x.Expires (fun n => plainElem "Expires" (goIntStr n)))

def encodeWrapper (x : Wrapper) : Node :=
  .elem "Wrapper"
    (attrOptBool "followAdditionalWrappers" x.FollowAdditionalWrappers ++
      attrOptBool "allowMultipleAds" x.AllowMultipleAds ++
      attrOptBool "fallbackOnNoAd" x.FallbackOnNoAd)
    (x.Impressions.map encodeImpression ++
      [cdataElem "VASTAdTagURI" x.VASTAdTagURI.CDATA] ++
      optNodes x.AdSystem (encodeAdSystem "AdSystem") ++
      optNodes x.Pricing encodePricing ++
      x.Errors.map (fun c => cdataElem "Error" c.CDATA) ++
      optNodes x.ViewableImpression encodeViewableImpression ++
      x.AdVerifications.map (encodeVerification "AdVerifications") ++
      parentNodes "Extensions" x.Extensions (encodeExtension "Extension") ++
      parentNodes "Creatives" x.Creatives encodeCreativeWrapper ++
      optNodes x.BlockedAdCategories encodeBlockedAdCategories)

def encodeAd (x : Ad) : Node :=
  .elem "Ad"
    (attrStrOmit "id" x.ID ++ attrStrOmit "adType" x.AdType ++
      attrIntOmit "sequence" x.Sequence)
    (optNodes x.InLine encodeInLine ++ optNodes x.Wrapper encodeWrapper)

def encodeVAST (x : VAST) : Node :=
  .elem "VAST"
    (attrStr "version" x.Version ++ attrStrOmit "xmlns" x.XMLNS ++
      attrBoolOmit "mute" x.Mute)
    (x.Ads.map encodeAd ++ x.Errors.map (fun c => cdataElem "Error" c.CDATA))

/-! ## Decoding

`decode…` functions embed Go `xml.Unmarshal` over the struct tags.
Relevant semantics:

* attributes are matched by name; a missing attribute leaves the field at
  its zero value; a present attribute is parsed (`strconv` for ints and
  bools — an empty value yields the zero value, junk is an error; the text
  unmarshaller for `Duration`/`Offset`); pointer attribute fields are
  allocated on match;
* character-data fields accumulate only the element's own top-level text
  (plain or CDATA); text inside unmatched child elements is skipped;
* element fields match children by name (descending through a flattened
  `parent>child` tag without materializing the parent); slice fields
  append every match; non-slice fields end up holding the last match;
  a pointer field is allocated only when a match is unmarshalled into it,
  so an empty flattened parent element never materializes a `nil` list;
* unmatched child elements are skipped entirely.

Decoding is `Option`-valued: `none` models a Go unmarshal error. -/

/-- Look up an attribute by name (first match, as in Go's attribute loop —
duplicate attribute names do not occur in well-formed XML). -/
def findAttr (attrs : List Attr) (n : String) : Option String :=
  (attrs.find? (fun a => a.name == n)).map (fun a => a.val)

/-- Whether a node is an element with the given tag name. -/
def Node.isNamed (n : String) : Node → Bool
  | .elem m _ _ => m == n
  | .txt _ _ => false

/-- The attribute list of an element node. -/
def childAttrs : Node → List Attr
  | .elem _ a _ => a
  | .txt _ _ => []

/-- The children of an element node. -/
def childNodes : Node → List Node
  | .elem _ _ c => c
  | .txt _ _ => []

/-- The child elements with a given tag name, in document order. -/
def elemChildren (ch : List Node) (n : String) : List Node :=
  ch.filter (fun x => Node.isNamed n x)

/-- The last child element with a given name (a non-slice field holds the
last match). -/
def lastChild (ch : List Node) (n : String) : Option Node :=
  (elemChildren ch n).getLast?

/-- The grandchild elements named `n` inside child elements named `p`, in
document order (flattened `p>n` tag paths). -/
def grandChildren (ch : List Node) (p n : String) : List Node :=
  (elemChildren ch p).foldr
    (fun x acc =>
      (match x with
       | .elem _ _ cs => elemChildren cs n
       | .txt _ _ => []) ++ acc)
    []

/-- The element's own character content: top-level text runs concatenated,
CDATA or not. -/
def textOf (ch : List Node) : String :=
  ch.foldl
    (fun acc x =>
      match x with
      | .txt s _ => acc ++ s
      | .elem _ _ _ => acc)
    ""

/-- Forget which error a parse produced (decode just fails). -/
def exOpt {α : Type} : Except VastError α → Option α
  | .ok a => some a
  | .error _ => none

/-- Go `strconv.ParseInt` after `strings.TrimSpace`, with the
`encoding/xml` convention that empty source data yields the zero value.
(Go's 64-bit range check is not modelled; the documents at issue stay far
below it.) -/
def parseGoInt (s : String) : Option Int :=
  if s = "" then some 0
  else
    match s.trim.data with
    | '-' :: ds => (digitsToNat ds).map (fun n => -(n : Int))
    | '+' :: ds => (digitsToNat ds).map (fun n => (n : Int))
    | ds => (digitsToNat ds).map (fun n => (n : Int))

/-- Go `strconv.ParseBool` after `strings.TrimSpace`, with empty source
data yielding `false`. -/
def parseGoBool (s : String) : Option Bool :=
  if s = "" then some false
  else
    match s.trim with
    | "1" | "t" | "T" | "true" | "TRUE" | "True" => some true
    | "0" | "f" | "F" | "false" | "FALSE" | "False" => some false
    | _ => none

/-- A string attribute: absent means the zero value `""`. -/
def decAttrStr (attrs : List Attr) (n : String) : String :=
  (findAttr attrs n).getD ""

/-- An int attribute: absent means `0`; present is parsed. -/
def decAttrInt (attrs : List Attr) (n : String) : Option Int :=
  match findAttr attrs n with
  | none => some 0
  | some s => parseGoInt s

/-- A required bool attribute: absent means `false`. -/
def decAttrBool (attrs : List Attr) (n : String) : Option Bool :=
  match findAttr attrs n with
  | none => some false
  | some s => parseGoBool s

/-- A `*bool` attribute: absent stays nil; present allocates and parses. -/
def decAttrOptBool (attrs : List Attr) (n : String) : Option (Option Bool) :=
  match findAttr attrs n with
  | none => some none
  | some s => (parseGoBool s).map some

/-- A `Duration` attribute: absent means the zero duration; present is
parsed via the text unmarshaller. -/
def decAttrDur (attrs : List Attr) (n : String) : Option Duration :=
  match findAttr attrs n with
  | none => some 0
  | some s => exOpt (ParseDuration s)

/-- An `*Offset` attribute: absent stays nil. -/
def decAttrOptOffset (attrs : List Attr) (n : String) : Option (Option Offset) :=
  match findAttr attrs n with
  | none => some none
  | some s => (exOpt (ParseOffset s)).map some

/-- An optional (pointer) element field: allocated only on a match. -/
def decOptField {α : Type} (ch : List Node) (n : String) (dec : Node → Option α) :
    Option (Option α) :=
  match lastChild ch n with
  | none => some none
  | some x => (dec x).map some

/-- A required (value) element field: absent leaves the zero value. -/
def decReqField {α : Type} (ch : List Node) (n : String) (dec : Node → Option α)
    (z : α) : Option α :=
  match lastChild ch n with
  | none => some z
  | some x => dec x

/-- A slice element field: one item per match, in document order. -/
def decListField {α : Type} (ch : List Node) (n : String) (dec : Node → Option α) :
    Option (List α) :=
  (elemChildren ch n).mapM dec

/-- A `*[]T` field behind a flattened `p>n` path: the pointer is allocated
only when some `n` grandchild is unmarshalled, so no matches — including a
present-but-empty `p` element — leave it nil. -/
def decPtrListField {α : Type} (ch : List Node) (p n : String)
    (dec : Node → Option α) : Option (Option (List α)) :=
  match grandChildren ch p n with
  | [] => some none
  | l => (l.mapM dec).map some

/-- A bare `[]T` field behind a flattened `p>n` path. -/
def decBareListVia {α : Type} (ch : List Node) (p n : String)
    (dec : Node → Option α) : Option (List α) :=
  (grandChildren ch p n).mapM dec

/-- A pointer field behind a flattened `p>n` path (last match wins). -/
def decPtrFieldVia {α : Type} (ch : List Node) (p n : String)
    (dec : Node → Option α) : Option (Option α) :=
  match (grandChildren ch p n).getLast? with
  | none => some none
  | some x => (dec x).map some

/-- A plain-string element field: absent means `""`; present yields the
matched element's character content. -/
def decTextField (ch : List Node) (n : String) : String :=
  match lastChild ch n with
  | none => ""
  | some x => textOf (childNodes x)

/-- An `*int` element field. -/
def decIntPtrField (ch : List Node) (n : String) : Option (Option Int) :=
  match lastChild ch n with
  | none => some none
  | some x => (parseGoInt (textOf (childNodes x))).map some

/-- A `Duration` element field: absent means the zero duration. -/
def decDurField (ch : List Node) (n : String) : Option Duration :=
  match lastChild ch n with
  | none => some 0
  | some x => exOpt (ParseDuration (textOf (childNodes x)))

def decodeCDATAString (x : Node) : Option CDATAString :=
  some ⟨textOf (childNodes x)⟩

def decodeImpression : Node → Option Impression
  | .elem _ attrs ch => some { ID := decAttrStr attrs "id", URI := textOf ch }
  | .txt _ _ => none

def decodePricing : Node → Option Pricing
  | .elem _ attrs ch =>
    some { Model := decAttrStr attrs "model", Currency := decAttrStr attrs "currency",
           Value := textOf ch }
  | .txt _ _ => none

def decodeBlockedAdCategories : Node → Option BlockedAdCategories
  | .elem _ attrs ch =>
    some { Categories := textOf ch, Authority := decAttrStr attrs "authority" }
  | .txt _ _ => none

def decodeAdSystem : Node → Option AdSystem
  | .elem _ attrs ch =>
    some { Name := textOf ch, Version := decAttrStr attrs "version" }
  | .txt _ _ => none

def decodeCategory : Node → Option Category
  | .elem _ attrs ch =>
    some { Category := textOf ch, Authority := decAttrStr attrs "authority" }
  | .txt _ _ => none

def decodeSurvey : Node → Option Survey
  | .elem _ attrs ch =>
    some { URI := textOf ch, Type' := decAttrStr attrs "type" }
  | .txt _ _ => none

def decodeUniversalAdID : Node → Option UniversalAdID
  | .elem _ attrs ch =>
    some { ID := textOf ch, IDRegistry := decAttrStr attrs "idRegistry" }
  | .txt _ _ => none

def decodeStaticResource : Node → Option StaticResource
  | .elem _ attrs ch =>
    some { CreativeType := decAttrStr attrs "creativeType", URI := textOf ch }
  | .txt _ _ => none

def decodeHTMLResource : Node → Option HTMLResource
  | .elem _ attrs ch => do
    let enc ← decAttrOptBool attrs "xmlEncoded"
    some { XMLEncoded := enc, HTML := textOf ch }
  | .txt _ _ => none

def decodeAdParameters : Node → Option AdParameters
  | .elem _ attrs ch => do
    let enc ← decAttrOptBool attrs "xmlEncoded"
    some { XMLEncoded := enc, Parameters := textOf ch }
  | .txt _ _ => none

def decodeVideoClick : Node → Option VideoClick
  | .elem _ attrs ch => some { ID := decAttrStr attrs "id", URI := textOf ch }
  | .txt _ _ => none

def decodeCompanionClickTracking : Node → Option CompanionClickTracking
  | .elem _ attrs ch => some { ID := decAttrStr attrs "id", URI := textOf ch }
  | .txt _ _ => none

def decodeNonLinearClickTracking : Node → Option NonLinearClickTracking
  | .elem _ attrs ch => some { ID := decAttrStr attrs "id", URI := textOf ch }
  | .txt _ _ => none

def decodeMediaFile : Node → Option MediaFile
  | .elem _ attrs ch => do
    let w ← decAttrInt attrs "width"
    let h ← decAttrInt attrs "height"
    let br ← decAttrInt attrs "bitrate"
    let minBr ← decAttrInt attrs "minBitrate"
    let maxBr ← decAttrInt attrs "maxBitrate"
    let sc ← decAttrOptBool attrs "scalable"
    let mar ← decAttrOptBool attrs "maintainAspectRatio"
    let fs ← decAttrInt attrs "fileSize"
    some { URI := textOf ch, Delivery := decAttrStr attrs "delivery",
           Type' := decAttrStr attrs "type", Width := w, Height := h,
           Codec := decAttrStr attrs "codec", ID := decAttrStr attrs "id",
           Bitrate := br, MinBitrate := minBr, MaxBitrate := maxBr,
           Scalable := sc, MaintainAspectRatio := mar,
           APIFramework := decAttrStr attrs "apiFramework", FileSize := fs,
           MediaType := decAttrStr attrs "mediaType" }
  | .txt _ _ => none

def decodeTracking : Node → Option Tracking
  | .elem _ attrs ch => do
    let off ← decAttrOptOffset attrs "offset"
    some { Event := decAttrStr attrs "event", Offset := off, URI := textOf ch,
           UA := decAttrStr attrs "ua" }
  | .txt _ _ => none

def decodeExtension : Node → Option Extension
  | .elem _ attrs ch => some { attrs := attrs, children := ch }
  | .txt _ _ => none

def decodeAdvertiser : Node → Option Advertiser
  | .elem _ _ ch => some { Name := textOf ch }
  | .txt _ _ => none

def decodeViewableImpression : Node → Option ViewableImpression
  | .elem _ _ ch => do
    let vw ← decListField ch "Viewable" decodeCDATAString
    let nv ← decListField ch "NotViewable" decodeCDATAString
    let vu ← decListField ch "ViewUndetermined" decodeCDATAString
    some { Viewable := vw, NotViewable := nv, ViewUndetermined := vu }
  | .txt _ _ => none

def decodeVerification : Node → Option Verification
  | .elem _ attrs ch => some { attrs := attrs, children := ch }
  | .txt _ _ => none

def decodeVideoClicks : Node → Option VideoClicks
  | .elem _ _ ch => do
    let ct ← decListField ch "ClickTracking" decodeVideoClick
    let cc ← decListField ch "CustomClick" decodeVideoClick
    let th ← decListField ch "ClickThrough" decodeVideoClick
    some { ClickTrackings := ct, CustomClicks := cc, ClickThroughs := th }
  | .txt _ _ => none

def decodeIcon : Node → Option Icon
  | .elem _ attrs ch => do
    let w ← decAttrInt attrs "width"
    let h ← decAttrInt attrs "height"
    let off ← decAttrOptOffset attrs "offset"
    let dur ← decAttrDur attrs "duration"
    let sr ← decOptField ch "StaticResource" decodeStaticResource
    let hr ← decOptField ch "HTMLResource" decodeHTMLResource
    let ict ← decPtrFieldVia ch "IconClicks" "IconClickThrough" decodeCDATAString
    let icts ← decBareListVia ch "IconClicks" "IconClickTracking" decodeCDATAString
    let ivt ← decOptField ch "IconViewTracking" decodeCDATAString
    some { Program := decAttrStr attrs "program", Width := w, Height := h,
           XPosition := decAttrStr attrs "xPosition",
           YPosition := decAttrStr attrs "yPosition", Offset := off,
           Duration := dur, APIFramework := decAttrStr attrs "apiFramework",
           Pxratio := decAttrStr attrs "pxratio",
           AltText := decAttrStr attrs "altText",
           HoverText := decAttrStr attrs "hoverText", StaticResource := sr,
           IFrameResource := decTextField ch "IFrameResource",
           HTMLResource := hr, IconClickThrough := ict,
           IconClickTrackings := icts, IconViewTracking := ivt }
  | .txt _ _ => none

/-- `Icons`: the `*xml.Name` `XMLName` field is never populated by decode
(its type is a pointer, not `xml.Name`). -/
def decodeIcons : Node → Option Icons
  | .elem _ _ ch => do
    let ic ← decListField ch "Icon" decodeIcon
    some { XMLName := none, Icon := ic }
  | .txt _ _ => none

def decodeCompanion : Node → Option Companion
  | .elem _ attrs ch => do
    let w ← decAttrInt attrs "width"
    let h ← decAttrInt attrs "height"
    let aw ← decAttrInt attrs "assetWidth"
    let ah ← decAttrInt attrs "assetHeight"
    let ew ← decAttrInt attrs "expandedWidth"
    let eh ← decAttrInt attrs "expandedHeight"
    let hr ← decOptField ch "HTMLResource" decodeHTMLResource
    let sr ← decOptField ch "StaticResource" decodeStaticResource
    let ap ← decOptField ch "AdParameters" decodeAdParameters
    let ccts ← decListField ch "CompanionClickTracking" decodeCompanionClickTracking
    let te ← decPtrListField ch "TrackingEvents" "Tracking" decodeTracking
    some { ID := decAttrStr attrs "id", Width := w, Height := h,
           AssetWidth := aw, AssetHeight := ah, ExpandedWidth := ew,
           ExpandedHeight := eh, APIFramework := decAttrStr attrs "apiFramework",
           AdSlotID := decAttrStr attrs "adSlotId", HTMLResource := hr,
           IFrameResource := decTextField ch "IFrameResource",
           StaticResource := sr, AdParameters := ap,
           AltText := decTextField ch "AltText",
           CompanionClickThrough := decTextField ch "CompanionClickThrough",
           CompanionClickTrackings := ccts, TrackingEvents := te }
  | .txt _ _ => none

/-- `CompanionWrapper`: `IFrameResource` is a `,cdata` field, so decode
fills it from the `Companion` element's own character content — a child
`<IFrameResource>` element is not matched by any field and is skipped. -/
def decodeCompanionWrapper : Node → Option CompanionWrapper
  | .elem _ attrs ch => do
    let w ← decAttrInt attrs "width"
    let h ← decAttrInt attrs "height"
    let aw ← decAttrInt attrs "assetWidth"
    let ah ← decAttrInt attrs "assetHeight"
    let ew ← decAttrInt attrs "expandedWidth"
    let eh ← decAttrInt attrs "expandedHeight"
    let ccts ← decListField ch "CompanionClickTracking" decodeCDATAString
    let te ← decPtrListField ch "TrackingEvents" "Tracking" decodeTracking
    let ap ← decOptField ch "AdParameters" decodeAdParameters
    let sr ← decOptField ch "StaticResource" decodeStaticResource
    let hr ← decOptField ch "HTMLResource" decodeHTMLResource
    some { ID := decAttrStr attrs "id", Width := w, Height := h,
           AssetWidth := aw, AssetHeight := ah, ExpandedWidth := ew,
           ExpandedHeight := eh, APIFramework := decAttrStr attrs "apiFramework",
           AdSlotID := decAttrStr attrs "adSlotId",
           CompanionClickThrough := decTextField ch "CompanionClickThrough",
           CompanionClickTracking := ccts,
           AltText := decTextField ch "AltText", TrackingEvents := te,
           AdParameters := ap, StaticResource := sr,
           IFrameResource := textOf ch, HTMLResource := hr }
  | .txt _ _ => none

def decodeNonLinear : Node → Option NonLinear
  | .elem _ attrs ch => do
    let w ← decAttrInt attrs "width"
    let h ← decAttrInt attrs "height"
    let ew ← decAttrInt attrs "expandedWidth"
    let eh ← decAttrInt attrs "expandedHeight"
    let sc ← decAttrOptBool attrs "scalable"
    let mar ← decAttrOptBool attrs "maintainAspectRatio"
    let msd ← decAttrDur attrs "minSuggestedDuration"
    let hr ← decOptField ch "HTMLResource" decodeHTMLResource
    let sr ← decOptField ch "StaticResource" decodeStaticResource
    let ap ← decOptField ch "AdParameters" decodeAdParameters
    let nct ← decOptField ch "NonLinearClickThrough" decodeCDATAString
    let ncts ← decListField ch "NonLinearClickTracking" decodeNonLinearClickTracking
    some { ID := decAttrStr attrs "id", Width := w, Height := h,
           ExpandedWidth := ew, ExpandedHeight := eh, Scalable := sc,
           MaintainAspectRatio := mar, MinSuggestedDuration := msd,
           APIFramework := decAttrStr attrs "apiFramework", HTMLResource := hr,
           IFrameResource := decTextField ch "IFrameResource",
           StaticResource := sr, AdParameters := ap,
           NonLinearClickThrough := nct, NonLinearClickTrackings := ncts }
  | .txt _ _ => none

def decodeNonLinearWrapper : Node → Option NonLinearWrapper
  | .elem _ attrs ch => do
    let w ← decAttrInt attrs "width"
    let h ← decAttrInt attrs "height"
    let ew ← decAttrInt attrs "expandedWidth"
    let eh ← decAttrInt attrs "expandedHeight"
    let sc ← decAttrOptBool attrs "scalable"
    let mar ← decAttrOptBool attrs "maintainAspectRatio"
    let msd ← decAttrDur attrs "minSuggestedDuration"
    let te ← decPtrListField ch "TrackingEvents" "Tracking" decodeTracking
    let ncts ← decListField ch "NonLinearClickTracking" decodeCDATAString
    some { ID := decAttrStr attrs "id", Width := w, Height := h,
           ExpandedWidth := ew, ExpandedHeight := eh, Scalable := sc,
           MaintainAspectRatio := mar, MinSuggestedDuration := msd,
           APIFramework := decAttrStr attrs "apiFramework", TrackingEvents := te,
           NonLinearClickTracking := ncts }
  | .txt _ _ => none

def decodeCompanionAds : Node → Option CompanionAds
  | .elem _ attrs ch => do
    let cs ← decListField ch "Companion" decodeCompanion
    some { Required := decAttrStr attrs "required", Companions := cs }
  | .txt _ _ => none

def decodeNonLinearAds : Node → Option NonLinearAds
  | .elem _ _ ch => do
    let te ← decPtrListField ch "TrackingEvents" "Tracking" decodeTracking
    let nl ← decListField ch "NonLinear" decodeNonLinear
    some { TrackingEvents := te, NonLinears := nl }
  | .txt _ _ => none

def decodeCompanionAdsWrapper : Node → Option CompanionAdsWrapper
  | .elem _ attrs ch => do
    let cs ← decListField ch "Companion" decodeCompanionWrapper
    some { Required := decAttrStr attrs "required", Companions := cs }
  | .txt _ _ => none

def decodeNonLinearAdsWrapper : Node → Option NonLinearAdsWrapper
  | .elem _ _ ch => do
    let te ← decPtrListField ch "TrackingEvents" "Tracking" decodeTracking
    let nl ← decListField ch "NonLinear" decodeNonLinearWrapper
    some { TrackingEvents := te, NonLinears := nl }
  | .txt _ _ => none

def decodeLinear : Node → Option Linear
  | .elem _ attrs ch => do
    let dur ← decDurField ch "Duration"
    let mf ← decPtrListField ch "MediaFiles" "MediaFile" decodeMediaFile
    let ap ← decOptField ch "AdParameters" decodeAdParameters
    let te ← decPtrListField ch "TrackingEvents" "Tracking" decodeTracking
    let vc ← decOptField ch "VideoClicks" decodeVideoClicks
    let ic ← decOptField ch "Icons" decodeIcons
    let sk ← decAttrOptOffset attrs "skipoffset"
    some { Duration := dur, MediaFiles := mf, AdParameters := ap,
           TrackingEvents := te, VideoClicks := vc, Icons := ic,
           SkipOffset := sk }
  | .txt _ _ => none

def decodeLinearWrapper : Node → Option LinearWrapper
  | .elem _ _ ch => do
    let ic ← decOptField ch "Icons" decodeIcons
    let te ← decPtrListField ch "TrackingEvents" "Tracking" decodeTracking
    let vc ← decOptField ch "VideoClicks" decodeVideoClicks
    some { Icons := ic, TrackingEvents := te, VideoClicks := vc }
  | .txt _ _ => none

def decodeCreative : Node → Option Creative
  | .elem _ attrs ch => do
    let ua ← decListField ch "UniversalAdId" decodeUniversalAdID
    let ce ← decPtrListField ch "CreativeExtensions" "CreativeExtension" decodeExtension
    let ca ← decOptField ch "CompanionAds" decodeCompanionAds
    let li ← decOptField ch "Linear" decodeLinear
    let nl ← decOptField ch "NonLinearAds" decodeNonLinearAds
    let seq ← decAttrInt attrs "sequence"
    some { UniversalAdID := ua, CreativeExtensions := ce, CompanionAds := ca,
           Linear := li, NonLinearAds := nl, ID := decAttrStr attrs "id",
           Sequence := seq, AdID := decAttrStr attrs "adId",
           APIFramework := decAttrStr attrs "apiFramework" }
  | .txt _ _ => none

def decodeCreativeWrapper : Node → Option CreativeWrapper
  | .elem _ attrs ch => do
    let li ← decOptField ch "Linear" decodeLinearWrapper
    let ca ← decOptField ch "CompanionAds" decodeCompanionAdsWrapper
    let nl ← decOptField ch "NonLinearAds" decodeNonLinearAdsWrapper
    let seq ← decAttrInt attrs "sequence"
    some { ID := decAttrStr attrs "id", Sequence := seq,
           AdID := decAttrStr attrs "adId", Linear := li, CompanionAds := ca,
           NonLinearAds := nl }
  | .txt _ _ => none

def decodeInLine : Node → Option InLine
  | .elem _ _ ch => do
    let adSys ← decReqField ch "AdSystem" decodeAdSystem ⟨"", ""⟩
    let imps ← decListField ch "Impression" decodeImpression
    let cats ← decListField ch "Category" decodeCategory
    let adv ← decOptField ch "Advertiser" decodeAdvertiser
    let pr ← decOptField ch "Pricing" decodePricing
    let sv ← decOptField ch "Survey" decodeSurvey
    let errs ← decListField ch "Error" decodeCDATAString
    let exts ← decPtrListField ch "Extensions" "Extension" decodeExtension
    let vi ← decOptField ch "ViewableImpression" decodeViewableImpression
    let avs ← decListField ch "AdVerifications" decodeVerification
    let crs ← decBareListVia ch "Creatives" "Creative" decodeCreative
    let exp ← decIntPtrField ch "Expires"
    some { AdSystem := adSys, AdTitle := decTextField ch "AdTitle",
           Impressions := imps, AdServingId := decTextField ch "AdServingId",
           Category := cats, Description := decTextField ch "Description",
           Advertiser := adv, Pricing := pr, Survey := sv, Errors := errs,
           Extensions := exts, ViewableImpression := vi, AdVerifications := avs,
           Creatives := crs, Expires := exp }
  | .txt _ _ => none

def decodeWrapper : Node → Option Wrapper
  | .elem _ attrs ch => do
    let imps ← decListField ch "Impression" decodeImpression
    let uri ← decReqField ch "VASTAdTagURI" decodeCDATAString ⟨""⟩
    let adSys ← decOptField ch "AdSystem" decodeAdSystem
    let pr ← decOptField ch "Pricing" decodePricing
    let errs ← decListField ch "Error" decodeCDATAString
    let vi ← decOptField ch "ViewableImpression" decodeViewableImpression
    let avs ← decListField ch "AdVerifications" decodeVerification
    let exts ← decPtrListField ch "Extensions" "Extension" decodeExtension
    let crs ← decPtrListField ch "Creatives" "Creative" decodeCreativeWrapper
    let bac ← decOptField ch "BlockedAdCategories" decodeBlockedAdCategories
    let fw ← decAttrOptBool attrs "followAdditionalWrappers"
    let ama ← decAttrOptBool attrs "allowMultipleAds"
    let fb ← decAttrOptBool attrs "fallbackOnNoAd"
    some { Impressions := imps, VASTAdTagURI := uri, AdSystem := adSys,
           Pricing := pr, Errors := errs, ViewableImpression := vi,
           AdVerifications := avs, Extensions := exts, Creatives := crs,
           BlockedAdCategories := bac, FollowAdditionalWrappers := fw,
           AllowMultipleAds := ama, FallbackOnNoAd := fb }
  | .txt _ _ => none

def decodeAd : Node → Option Ad
  | .elem _ attrs ch => do
    let inl ← decOptField ch "InLine" decodeInLine
    let wr ← decOptField ch "Wrapper" decodeWrapper
    let seq ← decAttrInt attrs "sequence"
    some { InLine := inl, Wrapper := wr, ID := decAttrStr attrs "id",
           AdType := decAttrStr attrs "adType", Sequence := seq }
  | .txt _ _ => none

def decodeVAST : Node → Option VAST
  | .elem _ attrs ch => do
    let ads ← decListField ch "Ad" decodeAd
    let errs ← decListField ch "Error" decodeCDATAString
    let mute ← decAttrBool attrs "mute"
    some { Version := decAttrStr attrs "version",
           XMLNS := decAttrStr attrs "xmlns", Ads := ads, Errors := errs,
           Mute := mute }
  | .txt _ _ => none

/-! ## Validation

Modelled from the spec (§4.4): the validation pass is not part of
src/vast.go; its checks are taken from the specification's list, each
yielding a distinct error kind. -/

/-- Modelled from the spec: an `Ad` must contain exactly one of the
`InLine` and `Wrapper` payloads; both or neither yield `malformedAd`. -/
def validateAd (a : Ad) : Option VastError :=
  match a.InLine, a.Wrapper with
  | some _, some _ => some .malformedAd
  | none, none => some .malformedAd
  | _, _ => none

/-- Modelled from the spec: a progress tracking event requires an offset;
`missingOffset` otherwise. -/
def validateTracking (t : Tracking) : Option VastError :=
  if t.Event = "progress" ∧ t.Offset = none then some .missingOffset else none

/-- Modelled from the spec: the pricing model must be one of
`cpm`, `cpc`, `cpe`, `cpv`. -/
def validatePricing (p : Pricing) : Option VastError :=
  if p.Model = "cpm" ∨ p.Model = "cpc" ∨ p.Model = "cpe" ∨ p.Model = "cpv" then none
  else some .invalidPricingModel

/-- Modelled from the spec: a category without an authority yields
`missingAuthority`. -/
def validateCategory (c : Category) : Option VastError :=
  if c.Authority = "" then some .missingAuthority else none

/-- The checkable exactly-one-of test on an `Ad`'s two nullable payload
fields. -/
def adPayloadCheck (a : Ad) : Bool :=
  (a.InLine.isSome && !a.Wrapper.isSome) || (!a.InLine.isSome && a.Wrapper.isSome)

/-- Trackings of an optional tracking-event list all validate. -/
def trackingsValid (o : Option (List Tracking)) : Bool :=
  match o with
  | none => true
  | some l => l.all (fun t => (validateTracking t).isNone)

/-- Modelled from the spec: the validation walk over one `Creative`. -/
def creativeValid (c : Creative) : Bool :=
  (match c.Linear with
   | none => true
   | some l => trackingsValid l.TrackingEvents) &&
  (match c.CompanionAds with
   | none => true
   | some ca => ca.Companions.all (fun cp => trackingsValid cp.TrackingEvents)) &&
  (match c.NonLinearAds with
   | none => true
   | some na => trackingsValid na.TrackingEvents)

/-- Modelled from the spec: the validation walk over one `CreativeWrapper`. -/
def creativeWrapperValid (c : CreativeWrapper) : Bool :=
  (match c.Linear with
   | none => true
   | some l => trackingsValid l.TrackingEvents) &&
  (match c.CompanionAds with
   | none => true
   | some ca => ca.Companions.all (fun cp => trackingsValid cp.TrackingEvents)) &&
  (match c.NonLinearAds with
   | none => true
   | some na => trackingsValid na.TrackingEvents)

/-- Modelled from the spec: the validation walk over one `InLine`. -/
def inLineValid (i : InLine) : Bool :=
  (match i.Pricing with
   | none => true
   | some p => (validatePricing p).isNone) &&
  i.Category.all (fun c => (validateCategory c).isNone) &&
  i.Creatives.all creativeValid

/-- Modelled from the spec: the validation walk over one `Wrapper`. -/
def wrapperValid (w : Wrapper) : Bool :=
  (match w.Pricing with
   | none => true
   | some p => (validatePricing p).isNone) &&
  (match w.BlockedAdCategories with
   | none => true
   | some b => !(b.Authority = "")) &&
  (match w.Creatives with
   | none => true
   | some l => l.all creativeWrapperValid)

/-- Modelled from the spec: the validation walk over one `Ad`. -/
def adValid (a : Ad) : Bool :=
  (validateAd a).isNone &&
  (match a.InLine with
   | none => true
   | some i => inLineValid i) &&
  (match a.Wrapper with
   | none => true
   | some w => wrapperValid w)

/-- Modelled from the spec: a Document is valid when every `Ad` (and the
structures below it) passes the validation checks. -/
def documentValid (v : VAST) : Bool :=
  v.Ads.all adValid

/-! ## Example values

Concrete documents used to evaluate the codec and the validator. -/

/-- A minimal inline ad whose `Extensions` field is an explicit empty
(non-nil) list. -/
def inLineC2 : InLine :=
  { AdSystem := ⟨"testsys", ""⟩, AdTitle := "title",
    Impressions := [⟨"", "http://example.com/imp"⟩],
    AdServingId := "", Category := [], Description := "", Advertiser := none,
    Pricing := none, Survey := none, Errors := [], Extensions := some [],
    ViewableImpression := none, AdVerifications := [], Creatives := [],
    Expires := none }

/-- The same inline ad with `Extensions` absent (nil) — what the inline ad
of `docC2` becomes after a round trip. -/
def inLineC2decoded : InLine :=
  { AdSystem := ⟨"testsys", ""⟩, AdTitle := "title",
    Impressions := [⟨"", "http://example.com/imp"⟩],
    AdServingId := "", Category := [], Description := "", Advertiser := none,
    Pricing := none, Survey := none, Errors := [], Extensions := none,
    ViewableImpression := none, AdVerifications := [], Creatives := [],
    Expires := none }

/-- The ad wrapping `inLineC2`. -/
def adC2 : Ad := ⟨some inLineC2, none, "ad1", "", 0⟩

/-- A valid document whose inline ad asserts an explicit empty extensions
block. -/
def docC2 : VAST :=
  { Version := "4.2", XMLNS := "", Ads := [adC2], Errors := [], Mute := false }

/-- What `docC2` becomes after encode-then-decode: identical except that the
explicit empty extensions list has collapsed to absent. -/
def docC2decoded : VAST :=
  { Version := "4.2", XMLNS := "",
    Ads := [⟨some inLineC2decoded, none, "ad1", "", 0⟩], Errors := [],
    Mute := false }

/-- A minimal wrapper ad parametrized by its extensions field. -/
def wrapC5 (exts : Option (List Extension)) : Wrapper :=
  { Impressions := [], VASTAdTagURI := ⟨"http://example.com/tag"⟩,
    AdSystem := none, Pricing := none, Errors := [],
    ViewableImpression := none, AdVerifications := [], Extensions := exts,
    Creatives := none, BlockedAdCategories := none,
    FollowAdditionalWrappers := none, AllowMultipleAds := none,
    FallbackOnNoAd := none }

/-- A document with a wrapper ad, parametrized by the wrapper's extensions
field. -/
def docC5 (exts : Option (List Extension)) : VAST :=
  { Version := "4.2", XMLNS := "",
    Ads := [⟨none, some (wrapC5 exts), "w1", "", 0⟩], Errors := [],
    Mute := false }

/-- An `Ad` value with both payloads set — representable because the Go
type uses two independently-nullable fields. -/
def adBothPayloads : Ad :=
  ⟨some inLineC2decoded, some (wrapC5 none), "both", "", 0⟩

/-- A `<Wrapper>` element carrying none of the three chain-control
attributes. -/
def wrapperNodeC8 : Node := .elem "Wrapper" [] []

/-- What `decodeWrapper` produces for `wrapperNodeC8`: every field at its
zero value, the three chain-control booleans nil. -/
def wrapperC8decoded : Wrapper :=
  { Impressions := [], VASTAdTagURI := ⟨""⟩, AdSystem := none, Pricing := none,
    Errors := [], ViewableImpression := none, AdVerifications := [],
    Extensions := none, Creatives := none, BlockedAdCategories := none,
    FollowAdditionalWrappers := none, AllowMultipleAds := none,
    FallbackOnNoAd := none }

/-- A companion with every dimension attribute zero. -/
def companionZeroDims : Companion :=
  { ID := "cp", Width := 0, Height := 0, AssetWidth := 0, AssetHeight := 0,
    ExpandedWidth := 0, ExpandedHeight := 0, APIFramework := "",
    AdSlotID := "slot", HTMLResource := none, IFrameResource := "http://if",
    StaticResource := none, AdParameters := none, AltText := "",
    CompanionClickThrough := "", CompanionClickTrackings := [],
    TrackingEvents := none }

/-- A wrapper companion with every dimension attribute zero. -/
def companionWrapperZeroDims : CompanionWrapper :=
  { ID := "cp", Width := 0, Height := 0, AssetWidth := 0, AssetHeight := 0,
    ExpandedWidth := 0, ExpandedHeight := 0, APIFramework := "",
    AdSlotID := "", CompanionClickThrough := "", CompanionClickTracking := [],
    AltText := "", TrackingEvents := none, AdParameters := none,
    StaticResource := none, IFrameResource := "http://if",
    HTMLResource := none }

/-- A `<Companion>` element of a wrapper, whose `IFrameResource` appears as
a child element rather than as character data. -/
def companionNodeC10 (uri : String) : Node :=
  .elem "Companion" [] [.elem "IFrameResource" [] [.txt uri true]]

/-! ## Helper lemmas -/

/-- Looking up an attribute name that does not occur yields nothing. -/
theorem findAttr_eq_none (attrs : List Attr) (n : String)
    (h : n ∉ attrs.map Attr.name) : findAttr attrs n = none := by
  induction attrs with
  | nil => rfl
  | cons a rest ih =>
    simp only [List.map_cons, List.mem_cons] at h
    push_neg at h
    unfold findAttr List.find?
    have : (a.name == n) = false := by
      simp [BEq.beq]
      intro hc
      exact h.1 hc.symm
    rw [this]
    exact ih h.2

/-- An omitempty int attribute with value zero is omitted. -/
theorem attrIntOmit_zero (n : String) : attrIntOmit n 0 = [] := by
  simp [attrIntOmit]

/-- An omitempty string attribute contributes at most its own name. -/
theorem attrStrOmit_names (x s v : String) :
    x ∈ (attrStrOmit s v).map Attr.name → x = s := by
  unfold attrStrOmit
  split <;> simp

/-- With all six dimension attributes zero, an encoded `Companion` carries
at most the `id`, `apiFramework` and `adSlotId` attributes. -/
theorem companion_attr_names (c : Companion)
    (h1 : c.Width = 0) (h2 : c.Height = 0) (h3 : c.AssetWidth = 0)
    (h4 : c.AssetHeight = 0) (h5 : c.ExpandedWidth = 0)
    (h6 : c.ExpandedHeight = 0) :
    ∀ x ∈ (childAttrs (encodeCompanion c)).map Attr.name,
      x = "id" ∨ x = "apiFramework" ∨ x = "adSlotId" := by
  intro x hx
  simp only [encodeCompanion, childAttrs, h1, h2, h3, h4, h5, h6,
    attrIntOmit_zero, List.append_nil, List.nil_append, List.map_append,
    List.mem_append] at hx
  rcases hx with (hx | hx) | hx
  · exact Or.inl (attrStrOmit_names _ _ _ hx)
  · exact Or.inr (Or.inl (attrStrOmit_names _ _ _ hx))
  · exact Or.inr (Or.inr (attrStrOmit_names _ _ _ hx))

/-- An encoded wrapper companion never has an `IFrameResource` child
element: the `,cdata` field contributes character data instead. -/
theorem companionWrapper_no_iframe_child (cw : CompanionWrapper) :
    elemChildren (childNodes (encodeCompanionWrapper cw)) "IFrameResource" = [] := by
  unfold encodeCompanionWrapper childNodes elemChildren
  rw [List.filter_eq_nil_iff]
  intro a ha
  simp only [List.mem_append, List.mem_map] at ha
  rcases ha with ((((((ha | ha) | ha) | ha) | ha) | ha) | ha) | ha
  · unfold plainElemOmit at ha
    split at ha <;> simp_all [plainElem, Node.isNamed]
  · obtain ⟨x, -, rfl⟩ := ha
    simp [cdataElem, Node.isNamed]
  · unfold plainElemOmit at ha
    split at ha <;> simp_all [plainElem, Node.isNamed]
  · unfold parentNodes at ha
    split at ha <;> simp_all [Node.isNamed]
  · unfold optNodes at ha
    split at ha <;> simp_all [encodeAdParameters, Node.isNamed]
  · unfold optNodes at ha
    split at ha <;> simp_all [encodeStaticResource, Node.isNamed]
  · unfold txtList at ha
    split at ha <;> simp_all [Node.isNamed]
  · unfold optNodes at ha
    split at ha <;> simp_all [encodeHTMLResource, Node.isNamed]

/-- A successfully parsed duration literal has the length of `HH:MM:SS` or
of `HH:MM:SS.mmm`. -/
theorem parseDuration_shape (s : String) (d : Duration)
    (h : ParseDuration s = .ok d) : s.data.length = 8 ∨ s.data.length = 12 := by
  unfold ParseDuration at h
  split at h
  · rename_i heq
    left
    simp [heq]
  · rename_i heq
    right
    simp [heq]
  · exact absurd h (by simp)

/-- `ParseDuration` fails only with `invalidFormat`. -/
theorem parseDuration_error_kind (s : String) (e : VastError)
    (h : ParseDuration s = .error e) : e = .invalidFormat := by
  unfold ParseDuration at h
  repeat' split at h
  all_goals first
    | exact Except.noConfusion h
    | (injection h with h2; exact h2.symm)

/-- A time offset comes exactly from the duration pattern — no coercion
from the percentage form. -/
theorem parseOffset_time_from_duration (s : String) (d : Duration)
    (h : ParseOffset s = .ok (.time d)) : ParseDuration s = .ok d := by
  unfold ParseOffset at h
  cases he : ParseDuration s with
  | ok d' =>
    rw [he] at h
    injection h with h2
    injection h2 with h3
    rw [h3]
  | error e =>
    rw [he] at h
    cases hp : parsePercent s with
    | none =>
      rw [hp] at h
      exact Except.noConfusion h
    | some pr =>
      rw [hp] at h
      rcases pr with ⟨u', fr'⟩
      simp at h

/-- A percentage offset arises only when the text does not match the
duration pattern — no coercion into the time form. -/
theorem parseOffset_percent_not_duration (s : String) (u : Nat) (fr : List Nat)
    (h : ParseOffset s = .ok (.percent u fr)) :
    ParseDuration s = .error .invalidFormat := by
  unfold ParseOffset at h
  cases he : ParseDuration s with
  | ok d =>
    rw [he] at h
    simp at h
  | error e =>
    rw [parseDuration_error_kind s e he]

/-! ## Claim theorems -/

/-- C1 (counterexample): the `Ad` representation is not a tagged union —
the both-set state is representable: `adBothPayloads` has both the
`InLine` and the `Wrapper` payload present. -/
theorem ad_both_payloads_representable :
    Option.isSome adBothPayloads.InLine = true ∧
    Option.isSome adBothPayloads.Wrapper = true := by
  decide

/-- C1 (amended): in a well-formed Document every `Ad` has exactly one of
the `InLine` and `Wrapper` payloads; the representation is two
independently-nullable fields, so the both-set state is representable but
trivially checkable — `validateAd` accepts an `Ad` exactly when the
boolean exactly-one-of check passes. -/
theorem ad_exactly_one_payload_in_wellformed_document (v : VAST)
    (hv : documentValid v = true) (a : Ad) (ha : a ∈ v.Ads) :
    ((Option.isSome a.InLine = true ∧ a.Wrapper = none) ∨
      (a.InLine = none ∧ Option.isSome a.Wrapper = true)) ∧
    (validateAd a = none ↔ adPayloadCheck a = true) := by
  have hval : adValid a = true := by
    unfold documentValid at hv
    exact (List.all_eq_true.mp hv) a ha
  have hv2 : (validateAd a).isNone = true := by
    unfold adValid at hval
    simp only [Bool.and_eq_true] at hval
    exact hval.1.1
  constructor
  · cases hI : a.InLine <;> cases hW : a.Wrapper <;>
      simp [validateAd, hI, hW] at hv2 ⊢
  · cases hI : a.InLine <;> cases hW : a.Wrapper <;>
      simp [validateAd, adPayloadCheck, hI, hW]

/-- C1 (witness): the amended statement evaluated on the concrete valid
document `docC2` and its ad `adC2`. -/
theorem ad_exactly_one_payload_witness :
    ((Option.isSome adC2.InLine = true ∧ adC2.Wrapper = none) ∨
      (adC2.InLine = none ∧ Option.isSome adC2.Wrapper = true)) ∧
    (validateAd adC2 = none ↔ adPayloadCheck adC2 = true) :=
  ad_exactly_one_payload_in_wellformed_document docC2 (by decide) adC2 (by decide)

/-- C2: decode after encode is not the identity on valid Documents.
`docC2` passes validation, but its inline ad's explicit empty extensions
list (`some []`) comes back absent (`none`): the code loses the presence
bit, contradicting the spec's lossless round-trip contract. -/
theorem decode_encode_not_identity_on_valid_document :
    documentValid docC2 = true ∧
    decodeVAST (encodeVAST docC2) = some docC2decoded ∧
    docC2decoded ≠ docC2 := by
  refine ⟨by decide, by decide, by decide⟩

/-- C3: `ParseDuration` maps `00:00:30` to 30 seconds (30000 ms, zero
milliseconds), `00:00:30.500` to 30.5 seconds (30500 ms), rejects `30`
with `invalidFormat`, and accepts only strings of the `HH:MM:SS` (8
characters) or `HH:MM:SS.mmm` (12 characters) shapes. -/
theorem parseDuration_spec :
    ParseDuration "00:00:30" = .ok 30000 ∧
    ParseDuration "00:00:30.500" = .ok 30500 ∧
    ParseDuration "30" = .error .invalidFormat ∧
    ∀ s d, ParseDuration s = .ok d → s.data.length = 8 ∨ s.data.length = 12 := by
  refine ⟨by decide, by decide, by decide, ?_⟩
  intro s d h
  exact parseDuration_shape s d h

/-- C3 (witness): the shape conjunct applied at the concrete accepted
literal `00:00:30`. -/
theorem parseDuration_spec_witness :
    "00:00:30".data.length = 8 ∨ "00:00:30".data.length = 12 :=
  parseDuration_spec.2.2.2 "00:00:30" 30000 (by decide)

/-- C4: `ParseOffset` stores `00:01:00` as the time offset 60 s, `50%` as
the percentage offset 50, rejects `50` with `invalidFormat`, and never
coerces the two representations into each other: a time offset comes
exactly from the duration pattern, and a percentage offset only arises
when the duration pattern failed. -/
theorem parseOffset_spec :
    ParseOffset "00:01:00" = .ok (.time 60000) ∧
    ParseOffset "50%" = .ok (.percent 50 []) ∧
    ParseOffset "50" = .error .invalidFormat ∧
    (∀ s d, ParseOffset s = .ok (.time d) → ParseDuration s = .ok d) ∧
    (∀ s u fr, ParseOffset s = .ok (.percent u fr) →
      ParseDuration s = .error .invalidFormat) := by
  refine ⟨by decide, by decide, by decide, ?_, ?_⟩
  · intro s d h
    exact parseOffset_time_from_duration s d h
  · intro s u fr h
    exact parseOffset_percent_not_duration s u fr h

/-- C4 (witness): the no-coercion conjuncts applied at the concrete inputs
`00:01:00` and `50%`. -/
theorem parseOffset_spec_witness :
    ParseDuration "00:01:00" = .ok 60000 ∧
    ParseDuration "50%" = .error .invalidFormat :=
  ⟨parseOffset_spec.2.2.2.1 "00:01:00" 60000 (by decide),
   parseOffset_spec.2.2.2.2 "50%" 50 [] (by decide)⟩

/-- C5: the presence bit of a nullable extensions list is not preserved
through a round trip.  Encoding the wrapper with `Extensions = some []`
does emit an empty `<Extensions>` element, but decoding collapses it to
absent: the document with the explicit empty list round-trips to the
document with the field unset, while the unset document round-trips
exactly. -/
theorem extensions_presence_bit_lost_on_decode :
    elemChildren (childNodes (encodeWrapper (wrapC5 (some [])))) "Extensions" =
      [Node.elem "Extensions" [] []] ∧
    decodeVAST (encodeVAST (docC5 (some []))) = some (docC5 none) ∧
    docC5 (some []) ≠ docC5 none ∧
    decodeVAST (encodeVAST (docC5 none)) = some (docC5 none) := by
  refine ⟨by decide, by decide, by decide, by decide⟩

/-- C6: validating an `Ad` with both payloads set fails with
`malformedAd`, and so does validating an `Ad` with neither payload set —
for any values of the remaining fields. -/
theorem validateAd_rejects_both_and_neither (i : InLine) (w : Wrapper)
    (id adType : String) (seq : Int) :
    validateAd ⟨some i, some w, id, adType, seq⟩ = some .malformedAd ∧
    validateAd ⟨none, none, id, adType, seq⟩ = some .malformedAd :=
  ⟨rfl, rfl⟩

/-- C6 (witness): the exclusivity failures evaluated at concrete payloads. -/
theorem validateAd_rejects_witness :
    validateAd ⟨some inLineC2, some (wrapC5 none), "x", "", 0⟩ =
      some .malformedAd ∧
    validateAd ⟨none, none, "x", "", 0⟩ = some .malformedAd :=
  validateAd_rejects_both_and_neither inLineC2 (wrapC5 none) "x" "" 0

/-- C7: a `progress` tracking event without an offset fails validation
with `missingOffset`, while a `start` event without an offset is valid —
for any URI and user-agent value. -/
theorem validateTracking_progress_requires_offset (uri ua : String) :
    validateTracking ⟨"progress", none, uri, ua⟩ = some .missingOffset ∧
    validateTracking ⟨"start", none, uri, ua⟩ = none := by
  constructor <;> simp [validateTracking]

/-- C7 (witness): the progress/start validation outcomes at a concrete
URI. -/
theorem validateTracking_progress_witness :
    validateTracking ⟨"progress", none, "http://t", ""⟩ = some .missingOffset ∧
    validateTracking ⟨"start", none, "http://t", ""⟩ = none :=
  validateTracking_progress_requires_offset "http://t" ""

/-- C8 (counterexample): decoding a `<Wrapper>` element that omits the
three chain-control attributes leaves all three fields absent (`none`) —
`followAdditionalWrappers` is not resolved to `true`, nor the other two to
`false`. -/
theorem wrapper_defaults_not_applied :
    decodeWrapper wrapperNodeC8 = some wrapperC8decoded ∧
    wrapperC8decoded.FollowAdditionalWrappers = none ∧
    wrapperC8decoded.AllowMultipleAds = none ∧
    wrapperC8decoded.FallbackOnNoAd = none ∧
    (none : Option Bool) ≠ some true := by
  refine ⟨by decide, rfl, rfl, rfl, by decide⟩

/-- C8 (amended): on decode an absent optional attribute is left at the
field's Go zero value with no spec-default resolution: any successfully
decoded `Wrapper` element without the three chain-control attributes has
all three pointer fields nil. -/
theorem wrapper_absent_attrs_decode_to_nil (name : String) (attrs : List Attr)
    (ch : List Node) (w : Wrapper)
    (h1 : "followAdditionalWrappers" ∉ attrs.map Attr.name)
    (h2 : "allowMultipleAds" ∉ attrs.map Attr.name)
    (h3 : "fallbackOnNoAd" ∉ attrs.map Attr.name)
    (hw : decodeWrapper (.elem name attrs ch) = some w) :
    w.FollowAdditionalWrappers = none ∧ w.AllowMultipleAds = none ∧
      w.FallbackOnNoAd = none := by
  have e1 : decAttrOptBool attrs "followAdditionalWrappers" = some none := by
    unfold decAttrOptBool
    rw [findAttr_eq_none attrs _ h1]
  have e2 : decAttrOptBool attrs "allowMultipleAds" = some none := by
    unfold decAttrOptBool
    rw [findAttr_eq_none attrs _ h2]
  have e3 : decAttrOptBool attrs "fallbackOnNoAd" = some none := by
    unfold decAttrOptBool
    rw [findAttr_eq_none attrs _ h3]
  simp only [decodeWrapper] at hw
  rw [Option.bind_eq_bind', Option.bind_eq_some] at hw
  obtain ⟨imps, -, hw⟩ := hw
  rw [Option.bind_eq_bind', Option.bind_eq_some] at hw
  obtain ⟨uri, -, hw⟩ := hw
  rw [Option.bind_eq_bind', Option.bind_eq_some] at hw
  obtain ⟨adSys, -, hw⟩ := hw
  rw [Option.bind_eq_bind', Option.bind_eq_some] at hw
  obtain ⟨pr, -, hw⟩ := hw
  rw [Option.bind_eq_bind', Option.bind_eq_some] at hw
  obtain ⟨errs, -, hw⟩ := hw
  rw [Option.bind_eq_bind', Option.bind_eq_some] at hw
  obtain ⟨vi, -, hw⟩ := hw
  rw [Option.bind_eq_bind', Option.bind_eq_some] at hw
  obtain ⟨avs, -, hw⟩ := hw
  rw [Option.bind_eq_bind', Option.bind_eq_some] at hw
  obtain ⟨exts, -, hw⟩ := hw
  rw [Option.bind_eq_bind', Option.bind_eq_some] at hw
  obtain ⟨crs, -, hw⟩ := hw
  rw [Option.bind_eq_bind', Option.bind_eq_some] at hw
  obtain ⟨bac, -, hw⟩ := hw
  rw [Option.bind_eq_bind', Option.bind_eq_some] at hw
  obtain ⟨fw, hfw, hw⟩ := hw
  rw [Option.bind_eq_bind', Option.bind_eq_some] at hw
  obtain ⟨ama, hama, hw⟩ := hw
  rw [Option.bind_eq_bind', Option.bind_eq_some] at hw
  obtain ⟨fb, hfb, hw⟩ := hw
  rw [e1, Option.some.injEq] at hfw
  rw [e2, Option.some.injEq] at hama
  rw [e3, Option.some.injEq] at hfb
  rw [Option.some.injEq] at hw
  subst hw
  exact ⟨hfw.symm, hama.symm, hfb.symm⟩

/-- C8 (witness): the amended statement applied to the concrete
attribute-free wrapper element. -/
theorem wrapper_absent_attrs_witness :
    wrapperC8decoded.FollowAdditionalWrappers = none ∧
    wrapperC8decoded.AllowMultipleAds = none ∧
    wrapperC8decoded.FallbackOnNoAd = none :=
  wrapper_absent_attrs_decode_to_nil "Wrapper" [] [] wrapperC8decoded
    (by decide) (by decide) (by decide) (by decide)

/-- C9: for any `Companion` whose six dimension attributes are zero, the
encoder omits all six attributes, while for any `CompanionWrapper` the
encoder always emits all six — even when their values are zero. -/
theorem companion_dimension_attrs_optional_vs_required (c : Companion)
    (cw : CompanionWrapper)
    (h1 : c.Width = 0) (h2 : c.Height = 0) (h3 : c.AssetWidth = 0)
    (h4 : c.AssetHeight = 0) (h5 : c.ExpandedWidth = 0)
    (h6 : c.ExpandedHeight = 0) :
    ("width" ∉ (childAttrs (encodeCompanion c)).map Attr.name ∧
     "height" ∉ (childAttrs (encodeCompanion c)).map Attr.name ∧
     "assetWidth" ∉ (childAttrs (encodeCompanion c)).map Attr.name ∧
     "assetHeight" ∉ (childAttrs (encodeCompanion c)).map Attr.name ∧
     "expandedWidth" ∉ (childAttrs (encodeCompanion c)).map Attr.name ∧
     "expandedHeight" ∉ (childAttrs (encodeCompanion c)).map Attr.name) ∧
    ("width" ∈ (childAttrs (encodeCompanionWrapper cw)).map Attr.name ∧
     "height" ∈ (childAttrs (encodeCompanionWrapper cw)).map Attr.name ∧
     "assetWidth" ∈ (childAttrs (encodeCompanionWrapper cw)).map Attr.name ∧
     "assetHeight" ∈ (childAttrs (encodeCompanionWrapper cw)).map Attr.name ∧
     "expandedWidth" ∈ (childAttrs (encodeCompanionWrapper cw)).map Attr.name ∧
     "expandedHeight" ∈ (childAttrs (encodeCompanionWrapper cw)).map Attr.name) := by
  have key := companion_attr_names c h1 h2 h3 h4 h5 h6
  constructor
  · refine ⟨?_, ?_, ?_, ?_, ?_, ?_⟩ <;>
      · intro hmem
        rcases key _ hmem with h | h | h <;> simp at h
  · refine ⟨?_, ?_, ?_, ?_, ?_, ?_⟩ <;>
      simp [encodeCompanionWrapper, childAttrs, attrInt, attrStrOmit,
        List.map_append, List.mem_append]

/-- C9 (witness): the attribute-presence split evaluated at concrete
companions with all dimensions zero. -/
theorem companion_dimension_attrs_witness :
    ("width" ∉ (childAttrs (encodeCompanion companionZeroDims)).map Attr.name ∧
     "height" ∉ (childAttrs (encodeCompanion companionZeroDims)).map Attr.name ∧
     "assetWidth" ∉ (childAttrs (encodeCompanion companionZeroDims)).map Attr.name ∧
     "assetHeight" ∉ (childAttrs (encodeCompanion companionZeroDims)).map Attr.name ∧
     "expandedWidth" ∉ (childAttrs (encodeCompanion companionZeroDims)).map Attr.name ∧
     "expandedHeight" ∉ (childAttrs (encodeCompanion companionZeroDims)).map Attr.name) ∧
    ("width" ∈ (childAttrs (encodeCompanionWrapper companionWrapperZeroDims)).map Attr.name ∧
     "height" ∈ (childAttrs (encodeCompanionWrapper companionWrapperZeroDims)).map Attr.name ∧
     "assetWidth" ∈ (childAttrs (encodeCompanionWrapper companionWrapperZeroDims)).map Attr.name ∧
     "assetHeight" ∈ (childAttrs (encodeCompanionWrapper companionWrapperZeroDims)).map Attr.name ∧
     "expandedWidth" ∈ (childAttrs (encodeCompanionWrapper companionWrapperZeroDims)).map Attr.name ∧
     "expandedHeight" ∈ (childAttrs (encodeCompanionWrapper companionWrapperZeroDims)).map Attr.name) :=
  companion_dimension_attrs_optional_vs_required companionZeroDims
    companionWrapperZeroDims rfl rfl rfl rfl rfl rfl

/-- C10: a `CompanionWrapper`'s `IFrameResource` is written as CDATA
character data of the enclosing `Companion` element itself — never as an
`IFrameResource` child element — while a `Companion`'s `IFrameResource`
encodes as a child element; and decoding a wrapper companion whose
`IFrameResource` appears as a child element leaves the field empty. -/
theorem companionWrapper_iframe_resource_cdata (cw : CompanionWrapper)
    (c : Companion) (uri : String)
    (hcw : cw.IFrameResource ≠ "") (hc : c.IFrameResource ≠ "") :
    elemChildren (childNodes (encodeCompanionWrapper cw)) "IFrameResource" = [] ∧
    Node.txt cw.IFrameResource true ∈ childNodes (encodeCompanionWrapper cw) ∧
    Node.elem "IFrameResource" [] [Node.txt c.IFrameResource false] ∈
      childNodes (encodeCompanion c) ∧
    Option.map CompanionWrapper.IFrameResource
        (decodeCompanionWrapper (companionNodeC10 uri)) = some "" := by
  refine ⟨companionWrapper_no_iframe_child cw, ?_, ?_, ?_⟩
  · simp [encodeCompanionWrapper, childNodes, txtList, hcw]
  · simp [encodeCompanion, childNodes, plainElemOmit, plainElem, txtList, hc]
  · rfl

/-- C10 (witness): the CDATA-vs-child-element split evaluated at concrete
companions and a concrete child-element input. -/
theorem companionWrapper_iframe_resource_witness :
    elemChildren (childNodes (encodeCompanionWrapper companionWrapperZeroDims))
        "IFrameResource" = [] ∧
    Node.txt companionWrapperZeroDims.IFrameResource true ∈
      childNodes (encodeCompanionWrapper companionWrapperZeroDims) ∧
    Node.elem "IFrameResource" [] [Node.txt companionZeroDims.IFrameResource false] ∈
      childNodes (encodeCompanion companionZeroDims) ∧
    Option.map CompanionWrapper.IFrameResource
        (decodeCompanionWrapper (companionNodeC10 "http://x")) = some "" :=
  companionWrapper_iframe_resource_cdata companionWrapperZeroDims
    companionZeroDims "http://x" (by decide) (by decide)
